import Mathlib

/-!
Shallow embedding of the Voice-Activated Drawer Controller from
`src/ar-app/App.js` (the `SideNav` component), together with theorems
about its spoken-command interpretation, drawer state machine, speech
session lifecycle and camera lifecycle.

The component's React state hooks become the fields of `NavState`;
each handler (`toggleMenu`, `onSpeechResults`, `startListening`,
`stopListening`, `toggleCameraType`, the mount init effect, the
spoken-text effect and the unmount cleanup) becomes a pure function
`NavState → NavState`.  Calls to external engines (`Voice.start`,
`Voice.stop`, `Voice.destroy`, camera capture opens/releases, OS
permission prompts, `Alert.alert`) are tracked with counters on the
state so that call-count claims are statable.  Outcomes of awaited
platform calls (permission grants, engine success/failure) enter as
boolean oracle parameters.  JavaScript try/catch around the only
throwing calls is inlined: the handler functions are total, which is
exactly the "no exception escapes the handler" behaviour of the
source.
-/

namespace ARApp

/-- Camera facing values, from `Camera.Constants.Type` as used in App.js. -/
inductive CamType
  | back
  | front
deriving DecidableEq, Repr

/-- Recognized voice intent of a transcript (open the drawer, close it, or nothing). -/
inductive Intent
  | OpenDrawer
  | CloseDrawer
  | NoIntent
deriving DecidableEq, Repr

/-- Boolean test that the first list is an initial segment of the second
(the inner loop of JavaScript `String.prototype.includes`). -/
def leadsWith : List Char → List Char → Bool
  | [], _ => true
  | _ :: _, [] => false
  | a :: p, b :: s => a == b && leadsWith p s

/-- Boolean substring containment on character lists: `hasSub p s` is true
iff `p` occurs contiguously inside `s`, mirroring JavaScript
`s.includes(p)`. -/
def hasSub (p : List Char) : List Char → Bool
  | [] => leadsWith p []
  | b :: s => leadsWith p (b :: s) || hasSub p s

/-- ASCII lower-casing of one character, the fragment of JavaScript
`toLowerCase` exercised by the matched phrases. -/
def lowerChar (c : Char) : Char :=
  if 65 ≤ c.toNat ∧ c.toNat ≤ 90 then Char.ofNat (c.toNat + 32) else c

/-- Character list of a string after lower-casing, i.e. the text that
`spokenText.toLowerCase()` is matched against in App.js lines 159 and 161. -/
def lowerStr (s : String) : List Char := s.data.map lowerChar

/-- Phrase checked first in the spoken-text effect (App.js line 159). -/
def openPhrase : List Char := "open menu".data

/-- Phrase checked second in the spoken-text effect (App.js line 161). -/
def closePhrase : List Char := "close menu".data

/-- Interpretation of a transcript, read off the guard structure of the
spoken-text effect in App.js lines 158-164: case-insensitive substring
match, `"open menu"` checked before `"close menu"`. -/
def interpret (s : String) : Intent :=
  if hasSub openPhrase (lowerStr s) then Intent.OpenDrawer
  else if hasSub closePhrase (lowerStr s) then Intent.CloseDrawer
  else Intent.NoIntent

/-- Device-dependent window width (`Dimensions.get('window').width` in
App.js); the claims never depend on its value, only on which target the
animation was last started toward. -/
def screenWidth : Int := 360

/-- Component state of `SideNav` plus counters for its observable calls
into the platform engines.  `animTarget` and `animCount` record the last
`Animated.timing` target and how many timed interpolations were started;
`startCount`, `stopCount`, `destroyCount` count `Voice.start`,
`Voice.stop`, `Voice.destroy`; `micPermRequests` counts OS microphone
permission prompts; `alerts` counts `Alert.alert` notices; `camOpens`,
`camReleases` and `cameraMounted` track the camera capture handle. -/
structure NavState where
  isOpen : Bool
  animTarget : Int
  animCount : Nat
  isListening : Bool
  spokenText : String
  isVoiceAvailable : Bool
  hasCameraPermission : Option Bool
  cameraType : CamType
  startCount : Nat
  stopCount : Nat
  destroyCount : Nat
  alerts : Nat
  micPermRequests : Nat
  camOpens : Nat
  camReleases : Nat
  cameraMounted : Bool
deriving DecidableEq, Repr

/-- Handler `toggleMenu` (App.js lines 50-58): starts a timed animation
toward the opposite offset and flips `isOpen`. -/
def toggleMenu (st : NavState) : NavState :=
  let toValue : Int := if st.isOpen then -screenWidth else 0
  { st with
    animTarget := toValue
    animCount := st.animCount + 1
    isOpen := !st.isOpen }

/-- Handler `onSpeechResults` (App.js lines 60-63): stores the first
recognized transcript and leaves the listening state. -/
def onSpeechResults (t : String) (st : NavState) : NavState :=
  { st with spokenText := t, isListening := false }

/-- Function `requestMicrophonePermission` (App.js lines 65-86): one
OS prompt whose outcome is the oracle `granted`; its own try/catch
already converts an errored channel into `false`. -/
def requestMicPerm (granted : Bool) (st : NavState) : NavState × Bool :=
  ({ st with micPermRequests := st.micPermRequests + 1 }, granted)

/-- Handler `startListening` (App.js lines 98-118).  `granted` is the
outcome of the fresh permission request, `startOk` whether `Voice.start`
succeeds.  The source's try/catch is inlined: the permission and
availability guards return after an alert; otherwise `isListening` is
set optimistically, `Voice.start` is invoked (counted even when it
throws), and the catch reverts `isListening` and raises an alert. -/
def startListening (granted startOk : Bool) (st : NavState) : NavState :=
  let p := requestMicPerm granted st
  let st1 := p.1
  if !p.2 then { st1 with alerts := st1.alerts + 1 }
  else if !st1.isVoiceAvailable then { st1 with alerts := st1.alerts + 1 }
  else
    let st2 := { st1 with isListening := true, startCount := st1.startCount + 1 }
    if startOk then st2
    else { st2 with isListening := false, alerts := st2.alerts + 1 }

/-- Handler `stopListening` (App.js lines 120-128).  `Voice.stop` is
invoked first; only on success does `setIsListening(false)` run — the
catch raises an alert and leaves `isListening` untouched. -/
def stopListening (stopOk : Bool) (st : NavState) : NavState :=
  let st1 := { st with stopCount := st.stopCount + 1 }
  if stopOk then { st1 with isListening := false }
  else { st1 with alerts := st1.alerts + 1 }

/-- Handler `toggleCameraType` (App.js lines 130-136). -/
def toggleCameraType (st : NavState) : NavState :=
  { st with
    cameraType :=
      if st.cameraType == CamType.back then CamType.front else CamType.back }

/-- Mount init effect (App.js lines 138-156): request microphone
permission, check voice availability only when granted (an errored
check resolves to `false`, folded into the oracle `voiceAvail`), then
request camera permission and record it.  The subsequent render commit
mounts the `Camera` component — opening the capture handle — iff the
camera permission resolved granted (App.js lines 166-171 and 192). -/
def initEffect (micGranted voiceAvail camGranted : Bool) (st : NavState) : NavState :=
  let p := requestMicPerm micGranted st
  let st1 := p.1
  let st2 := if p.2 then { st1 with isVoiceAvailable := voiceAvail } else st1
  let st3 := { st2 with hasCameraPermission := some camGranted }
  if camGranted then
    { st3 with cameraMounted := true, camOpens := st3.camOpens + 1 }
  else st3

/-- Spoken-text effect (App.js lines 158-164), re-run whenever
`spokenText` or `isOpen` changes: transcribed directly from the source
guards. -/
def spokenEffect (st : NavState) : NavState :=
  if hasSub openPhrase (lowerStr st.spokenText) then
    if !st.isOpen then toggleMenu st else st
  else if hasSub closePhrase (lowerStr st.spokenText) then
    if st.isOpen then toggleMenu st else st
  else st

/-- Application of one intent to the drawer, the composite set-open path
a voice command takes through the spoken-text effect. -/
def applyIntent (i : Intent) (st : NavState) : NavState :=
  match i with
  | Intent.OpenDrawer => if !st.isOpen then toggleMenu st else st
  | Intent.CloseDrawer => if st.isOpen then toggleMenu st else st
  | Intent.NoIntent => st

/-- Unmount cleanup.  App.js lines 153-155 run
`Voice.destroy().then(Voice.removeAllListeners)` — one `Voice.destroy`
per unmount.  Modelled from the spec: the camera capture handle opened
by mounting the `Camera` component is released when the component tree
unmounts; that release code lives in the expo-camera library, outside
this repository's sources. -/
def unmountStep (st : NavState) : NavState :=
  let st1 := { st with destroyCount := st.destroyCount + 1 }
  if st1.cameraMounted then
    { st1 with camReleases := st1.camReleases + 1, cameraMounted := false }
  else st1

/-- User-facing events after mount: tapping the microphone button (which
dispatches to `stopListening` when listening, else `startListening`,
App.js line 181), a delivered speech result, a menu/close tap (both call
`toggleMenu`), and the camera flip button. -/
inductive Ev
  | micTap (granted startOk stopOk : Bool)
  | speechResult (t : String)
  | menuTap
  | cameraFlip
deriving DecidableEq, Repr

/-- Dispatch of one event to its handler. -/
def eventStep : Ev → NavState → NavState
  | Ev.micTap granted startOk stopOk, st =>
      if st.isListening then stopListening stopOk st
      else startListening granted startOk st
  | Ev.speechResult t, st => onSpeechResults t st
  | Ev.menuTap, st => toggleMenu st
  | Ev.cameraFlip, st => toggleCameraType st

/-- One event followed by the re-run of the spoken-text effect (its
dependency array `[spokenText, isOpen, toggleMenu]` makes it re-fire
after any state change that touches those). -/
def stepE (e : Ev) (st : NavState) : NavState := spokenEffect (eventStep e st)

/-- Sequential processing of a list of events. -/
def runEvents : List Ev → NavState → NavState
  | [], st => st
  | e :: es, st => runEvents es (stepE e st)

/-- Initial hook values of `SideNav` (App.js lines 35-42): drawer
closed, animation parked at `-SCREEN_WIDTH`, not listening, empty
transcript, voice availability false, camera permission unknown, back
camera; all call counters zero. -/
def init0 : NavState :=
  { isOpen := false
    animTarget := -screenWidth
    animCount := 0
    isListening := false
    spokenText := ""
    isVoiceAvailable := false
    hasCameraPermission := none
    cameraType := CamType.back
    startCount := 0
    stopCount := 0
    destroyCount := 0
    alerts := 0
    micPermRequests := 0
    camOpens := 0
    camReleases := 0
    cameraMounted := false }

/-- Whole mount/unmount cycle: init effect with the three platform
oracles, any sequence of user events, then the unmount cleanup. -/
def mountCycle (micGranted voiceAvail camGranted : Bool) (es : List Ev) : NavState :=
  unmountStep (runEvents es (initEffect micGranted voiceAvail camGranted init0))

/-- Predicate picking out microphone-button taps, the only events that
issue a fresh OS permission prompt. -/
def isMicTap : Ev → Bool
  | Ev.micTap _ _ _ => true
  | _ => false

/-- Predicate picking out delivered speech results, the only events that
change the stored transcript. -/
def isSpeechResult : Ev → Bool
  | Ev.speechResult _ => true
  | _ => false

/-- Drawer set-open requests: a manual tap (a toggle) or the voice path
for each of the two recognized phrases. -/
inductive Req
  | tap
  | vOpen
  | vClose
deriving DecidableEq, Repr

/-- Processing of one set-open request: taps call `toggleMenu` directly,
voice requests go through the spoken-text effect's conditional toggle. -/
def reqStep : Req → NavState → NavState
  | Req.tap, st => toggleMenu st
  | Req.vOpen, st => applyIntent Intent.OpenDrawer st
  | Req.vClose, st => applyIntent Intent.CloseDrawer st

/-- Target drawer state of a request at the moment it is processed: a
tap targets the negation of the current state, voice requests target
their phrase's state. -/
def reqTarget : Req → NavState → Bool
  | Req.tap, st => !st.isOpen
  | Req.vOpen, _ => true
  | Req.vClose, _ => false

/-- Sequential processing of a list of set-open requests. -/
def runReqs : List Req → NavState → NavState
  | [], st => st
  | r :: rs, st => runReqs rs (reqStep r st)

/-- Helper: one event (followed by the spoken-text effect) never touches
the voice availability flag, the stored camera permission, the
`Voice.destroy` count, the camera open/release counts or the camera
mount flag, and the spoken-text effect never touches `isListening`. -/
theorem stepE_keeps (e : Ev) (st : NavState) :
    (stepE e st).isVoiceAvailable = st.isVoiceAvailable ∧
    (stepE e st).hasCameraPermission = st.hasCameraPermission ∧
    (stepE e st).destroyCount = st.destroyCount ∧
    (stepE e st).camOpens = st.camOpens ∧
    (stepE e st).camReleases = st.camReleases ∧
    (stepE e st).cameraMounted = st.cameraMounted ∧
    (stepE e st).isListening = (eventStep e st).isListening := by
  cases e <;>
    simp only [stepE, eventStep, spokenEffect, toggleMenu, onSpeechResults,
      startListening, stopListening, toggleCameraType, requestMicPerm] <;>
    split_ifs <;> simp

/-- Helper: the frame facts of `stepE_keeps`, lifted to event sequences. -/
theorem runEvents_keeps (es : List Ev) (st : NavState) :
    (runEvents es st).isVoiceAvailable = st.isVoiceAvailable ∧
    (runEvents es st).hasCameraPermission = st.hasCameraPermission ∧
    (runEvents es st).destroyCount = st.destroyCount ∧
    (runEvents es st).camOpens = st.camOpens ∧
    (runEvents es st).camReleases = st.camReleases ∧
    (runEvents es st).cameraMounted = st.cameraMounted := by
  induction es generalizing st with
  | nil => simp [runEvents]
  | cons e es ih =>
      have h := stepE_keeps e st
      have h2 := ih (stepE e st)
      exact ⟨h2.1.trans h.1, (h2.2.1).trans h.2.1, (h2.2.2.1).trans h.2.2.1,
        (h2.2.2.2.1).trans h.2.2.2.1, (h2.2.2.2.2.1).trans h.2.2.2.2.1,
        (h2.2.2.2.2.2).trans h.2.2.2.2.2.1⟩

/-- Helper: when voice availability is false, no event can reach the
`Voice.start` call inside `startListening`. -/
theorem stepE_no_start (e : Ev) (st : NavState)
    (hAvail : st.isVoiceAvailable = false) :
    (stepE e st).startCount = st.startCount := by
  cases e <;>
    simp only [stepE, eventStep, spokenEffect, toggleMenu, onSpeechResults,
      startListening, stopListening, toggleCameraType, requestMicPerm, hAvail] <;>
    split_ifs <;> simp_all

/-- Helper: `stepE_no_start` lifted to event sequences. -/
theorem runEvents_no_start (es : List Ev) (st : NavState)
    (hAvail : st.isVoiceAvailable = false) :
    (runEvents es st).startCount = st.startCount := by
  induction es generalizing st with
  | nil => rfl
  | cons e es ih =>
      have h := stepE_no_start e st hAvail
      have hA := (stepE_keeps e st).1.trans hAvail
      simpa [runEvents, h] using (ih (stepE e st) hA).trans h

/-- Helper: only microphone-button taps issue permission prompts. -/
theorem stepE_no_perm (e : Ev) (st : NavState) (h : isMicTap e = false) :
    (stepE e st).micPermRequests = st.micPermRequests := by
  cases e with
  | micTap g s p => exact absurd h (by simp [isMicTap])
  | speechResult t =>
      simp only [stepE, eventStep, spokenEffect, toggleMenu, onSpeechResults]
      split_ifs <;> simp
  | menuTap =>
      simp only [stepE, eventStep, spokenEffect, toggleMenu]
      split_ifs <;> simp
  | cameraFlip =>
      simp only [stepE, eventStep, spokenEffect, toggleMenu, toggleCameraType]
      split_ifs <;> simp

/-- Helper: `stepE_no_perm` lifted to event sequences. -/
theorem runEvents_no_perm (es : List Ev) (st : NavState)
    (h : es.all (fun e => !isMicTap e) = true) :
    (runEvents es st).micPermRequests = st.micPermRequests := by
  induction es generalizing st with
  | nil => rfl
  | cons e es ih =>
      simp only [List.all_cons, Bool.and_eq_true, Bool.not_eq_true'] at h
      have h1 := stepE_no_perm e st h.1
      have h2 := ih (stepE e st) (by simpa using h.2)
      simpa [runEvents] using h2.trans h1

/-- Helper: a transcript is interpreted as `OpenDrawer` exactly when its
lower-cased text contains the open phrase. -/
theorem interpret_open_iff (s : String) :
    interpret s = Intent.OpenDrawer ↔ hasSub openPhrase (lowerStr s) = true := by
  unfold interpret
  split_ifs with h1 h2 <;> simp_all

/-- Helper: a transcript is interpreted as `CloseDrawer` exactly when its
lower-cased text contains the close phrase and not the open phrase. -/
theorem interpret_close_iff (s : String) :
    interpret s = Intent.CloseDrawer ↔
      (hasSub openPhrase (lowerStr s) = false ∧
       hasSub closePhrase (lowerStr s) = true) := by
  unfold interpret
  split_ifs with h1 h2 <;> simp_all

/-- Helper: the spoken-text effect leaves the drawer open when the
stored transcript contains the open phrase. -/
theorem spokenEffect_open (st : NavState)
    (h : hasSub openPhrase (lowerStr st.spokenText) = true) :
    (spokenEffect st).isOpen = true := by
  cases hyp : st.isOpen <;> simp [spokenEffect, h, toggleMenu, hyp]

/-- Helper: the spoken-text effect leaves the drawer closed when the
stored transcript contains the close phrase and not the open phrase. -/
theorem spokenEffect_close (st : NavState)
    (h1 : hasSub openPhrase (lowerStr st.spokenText) = false)
    (h2 : hasSub closePhrase (lowerStr st.spokenText) = true) :
    (spokenEffect st).isOpen = false := by
  cases hyp : st.isOpen <;> simp [spokenEffect, h1, h2, toggleMenu, hyp]

/-- Helper: every event other than a delivered speech result leaves the
stored transcript unchanged. -/
theorem eventStep_spokenText (e : Ev) (st : NavState)
    (h : isSpeechResult e = false) :
    (eventStep e st).spokenText = st.spokenText := by
  cases e with
  | micTap g s p =>
      simp only [eventStep, startListening, stopListening, requestMicPerm]
      split_ifs <;> simp
  | speechResult t => exact absurd h (by simp [isSpeechResult])
  | menuTap => simp [eventStep, toggleMenu]
  | cameraFlip => simp [eventStep, toggleCameraType]

/-- Helper: request processing composes over list concatenation. -/
theorem runReqs_append (xs ys : List Req) (st : NavState) :
    runReqs (xs ++ ys) st = runReqs ys (runReqs xs st) := by
  induction xs generalizing st with
  | nil => rfl
  | cons x xs ih => simp [runReqs, ih]

/-- Helper: processing one set-open request lands the drawer exactly on
that request's target. -/
theorem reqStep_isOpen (r : Req) (st : NavState) :
    (reqStep r st).isOpen = reqTarget r st := by
  cases r <;> cases hyp : st.isOpen <;>
    simp [reqStep, reqTarget, applyIntent, toggleMenu, hyp]

/-- C1: interpretation of a transcript is a pure, deterministic,
case-insensitive substring match: a lower-cased text containing
"open menu" yields `OpenDrawer` (taking precedence when both phrases
occur), otherwise containing "close menu" yields `CloseDrawer`,
otherwise the intent is `NoIntent`; the interpretation depends only on
the lower-cased character list; the four concrete examples of the
specification evaluate as stated. -/
theorem interpret_command_policy :
    (∀ s : String,
      (hasSub openPhrase (lowerStr s) = true → interpret s = Intent.OpenDrawer) ∧
      (hasSub openPhrase (lowerStr s) = false →
        hasSub closePhrase (lowerStr s) = true → interpret s = Intent.CloseDrawer) ∧
      (hasSub openPhrase (lowerStr s) = false →
        hasSub closePhrase (lowerStr s) = false → interpret s = Intent.NoIntent)) ∧
    (∀ s t : String, lowerStr s = lowerStr t → interpret s = interpret t) ∧
    interpret "OPEN MENU please" = Intent.OpenDrawer ∧
    interpret "please close menu now" = Intent.CloseDrawer ∧
    interpret "hello world" = Intent.NoIntent ∧
    interpret "open menu then close menu" = Intent.OpenDrawer := by
  refine ⟨fun s => ⟨fun h => ?_, fun h1 h2 => ?_, fun h1 h2 => ?_⟩,
    fun s t h => ?_, by decide, by decide, by decide, by decide⟩
  · simp [interpret, h]
  · simp [interpret, h1, h2]
  · simp [interpret, h1, h2]
  · simp only [interpret, h]

/-- Witness for C1 at concrete inputs: a mixed-case utterance containing
the open phrase interprets to `OpenDrawer`, and two texts equal after
lower-casing interpret equally. -/
theorem interpret_command_policy_witness :
    interpret "say OPEN Menu now" = Intent.OpenDrawer ∧
    interpret "Close Menu" = interpret "close menu" :=
  ⟨(interpret_command_policy.1 "say OPEN Menu now").1 (by decide),
   interpret_command_policy.2.1 "Close Menu" "close menu" (by decide)⟩

/-- C2: for every sequence of drawer set-open requests (manual taps and
voice commands, in any interleaving) the committed drawer state after
the last request equals that request's target. -/
theorem drawer_last_request_wins (rs : List Req) (r : Req) (st : NavState) :
    (runReqs (rs ++ [r]) st).isOpen = reqTarget r (runReqs rs st) := by
  rw [runReqs_append]
  simpa [runReqs] using reqStep_isOpen r (runReqs rs st)

/-- C3: requesting set-open toward the state the drawer is already in is
a complete no-op — the state record is unchanged, so in particular no
new timed interpolation is started (`animCount` does not grow). -/
theorem setOpen_idempotent_no_restart (st : NavState) (x : Bool)
    (h : st.isOpen = x) :
    applyIntent (if x then Intent.OpenDrawer else Intent.CloseDrawer) st = st := by
  cases x <;> simp [applyIntent, h]

/-- Witness for C3: re-requesting open on an already-open drawer changes
nothing. -/
theorem setOpen_idempotent_no_restart_witness :
    applyIntent (if true then Intent.OpenDrawer else Intent.CloseDrawer)
      { init0 with isOpen := true } = { init0 with isOpen := true } :=
  setOpen_idempotent_no_restart { init0 with isOpen := true } true rfl

/-- C4: over every mount/unmount cycle, whatever events occur in between,
the unmount handler runs `Voice.destroy` exactly once, the camera capture
handle is opened exactly once when permission was granted and never
otherwise, and every open is matched by exactly one release. -/
theorem unmount_disposes_and_releases_once
    (micGranted voiceAvail camGranted : Bool) (es : List Ev) :
    (mountCycle micGranted voiceAvail camGranted es).destroyCount = 1 ∧
    (mountCycle micGranted voiceAvail camGranted es).camOpens
      = (if camGranted then 1 else 0) ∧
    (mountCycle micGranted voiceAvail camGranted es).camReleases
      = (mountCycle micGranted voiceAvail camGranted es).camOpens := by
  obtain ⟨-, -, h3, h4, h5, h6⟩ :=
    runEvents_keeps es (initEffect micGranted voiceAvail camGranted init0)
  unfold mountCycle unmountStep
  cases camGranted <;> cases micGranted <;>
    simp_all [initEffect, requestMicPerm, init0]

/-- C5: when the mount-time microphone permission resolves denied,
`Voice.start` is never invoked over the whole mounted lifetime (its call
count stays zero), voice availability stays false so voice features stay
disabled, and without further user microphone taps no additional
permission prompt is ever issued. -/
theorem mic_denied_never_starts (voiceAvail camGranted : Bool) (es : List Ev) :
    (runEvents es (initEffect false voiceAvail camGranted init0)).startCount = 0 ∧
    (runEvents es (initEffect false voiceAvail camGranted init0)).isVoiceAvailable
      = false ∧
    (es.all (fun e => !isMicTap e) = true →
      (runEvents es (initEffect false voiceAvail camGranted init0)).micPermRequests
        = 1) := by
  have hA : (initEffect false voiceAvail camGranted init0).isVoiceAvailable
      = false := by
    cases camGranted <;> simp [initEffect, requestMicPerm, init0]
  have hS : (initEffect false voiceAvail camGranted init0).startCount = 0 := by
    cases camGranted <;> simp [initEffect, requestMicPerm, init0]
  have hP : (initEffect false voiceAvail camGranted init0).micPermRequests = 1 := by
    cases camGranted <;> simp [initEffect, requestMicPerm, init0]
  refine ⟨(runEvents_no_start es _ hA).trans hS,
    (runEvents_keeps es _).1.trans hA,
    fun h => (runEvents_no_perm es _ h).trans hP⟩

/-- Witness for C5: a denied-microphone mount followed by a menu tap
and a speech result leaves the `Voice.start` count at zero and the
prompt count at one. -/
theorem mic_denied_never_starts_witness :
    (runEvents [Ev.menuTap, Ev.speechResult "open menu"]
      (initEffect false true true init0)).startCount = 0 ∧
    (runEvents [Ev.menuTap, Ev.speechResult "open menu"]
      (initEffect false true true init0)).micPermRequests = 1 :=
  ⟨(mic_denied_never_starts true true [Ev.menuTap, Ev.speechResult "open menu"]).1,
   (mic_denied_never_starts true true [Ev.menuTap, Ev.speechResult "open menu"]).2.2
     (by decide)⟩

/-- C6: when the camera permission resolves denied, the camera session is
never initialized over the whole mounted lifetime: no capture handle open
is ever attempted, the `Camera` component stays unmounted, and the stored
permission stays false. -/
theorem camera_denied_never_opens (micGranted voiceAvail : Bool) (es : List Ev) :
    (runEvents es (initEffect micGranted voiceAvail false init0)).camOpens = 0 ∧
    (runEvents es (initEffect micGranted voiceAvail false init0)).cameraMounted
      = false ∧
    (runEvents es (initEffect micGranted voiceAvail false init0)).hasCameraPermission
      = some false := by
  obtain ⟨-, h2, -, h4, -, h6⟩ :=
    runEvents_keeps es (initEffect micGranted voiceAvail false init0)
  cases micGranted <;> simp_all [initEffect, requestMicPerm, init0]

/-- Counterexample to C7 as stated: after a failing `Voice.stop` call the
listening state is NOT reverted to idle — starting from a listening
state, a stop failure leaves `isListening` true. -/
theorem stop_failure_leaves_listening :
    (stopListening false { init0 with isListening := true }).isListening
      = true := rfl

/-- C7 amended: speech engine failures are handled at the call site and
never escape the (total) handlers; a start failure reverts the optimistic
listening flag to idle and raises exactly one user-visible alert, while a
stop failure raises exactly one alert but leaves the listening flag
unchanged (it remains listening) rather than reverting it to idle. -/
theorem speech_failure_handled (st : NavState) (h : st.isVoiceAvailable = true) :
    ((startListening true false st).isListening = false ∧
     (startListening true false st).startCount = st.startCount + 1 ∧
     (startListening true false st).alerts = st.alerts + 1) ∧
    ((stopListening false st).isListening = st.isListening ∧
     (stopListening false st).stopCount = st.stopCount + 1 ∧
     (stopListening false st).alerts = st.alerts + 1) := by
  simp [startListening, stopListening, requestMicPerm, h]

/-- Witness for the amended C7 at a concrete state: a start failure ends
not listening, and a stop failure raises one alert. -/
theorem speech_failure_handled_witness :
    (startListening true false
      { init0 with isVoiceAvailable := true }).isListening = false ∧
    (stopListening false
      { init0 with isVoiceAvailable := true }).alerts = 1 :=
  ⟨(speech_failure_handled { init0 with isVoiceAvailable := true } rfl).1.1,
   (speech_failure_handled { init0 with isVoiceAvailable := true } rfl).2.2.2⟩

/-- C9: because the spoken-text effect re-fires on every drawer state
change and not only on transcript arrival, while the stored transcript
still interprets to `OpenDrawer` every non-transcript event (a manual
close tap included) is followed by the drawer being open again; and
symmetrically, while it interprets to `CloseDrawer`, every such event is
followed by the drawer being closed. -/
theorem stale_transcript_refires (st : NavState) (e : Ev)
    (hE : isSpeechResult e = false) :
    (interpret st.spokenText = Intent.OpenDrawer → (stepE e st).isOpen = true) ∧
    (interpret st.spokenText = Intent.CloseDrawer → (stepE e st).isOpen = false) := by
  have hT := eventStep_spokenText e st hE
  constructor
  · intro h
    have h1 := (interpret_open_iff st.spokenText).1 h
    exact spokenEffect_open (eventStep e st) (by rw [hT]; exact h1)
  · intro h
    have h1 := (interpret_close_iff st.spokenText).1 h
    exact spokenEffect_close (eventStep e st)
      (by rw [hT]; exact h1.1) (by rw [hT]; exact h1.2)

/-- Witness for C9: with the stale transcript "open menu" stored, a
manual tap that closes the open drawer is immediately followed by the
effect re-opening it. -/
theorem stale_transcript_refires_witness :
    (stepE Ev.menuTap
      { init0 with spokenText := "open menu", isOpen := true }).isOpen = true :=
  (stale_transcript_refires
    { init0 with spokenText := "open menu", isOpen := true } Ev.menuTap rfl).1
    (by decide)

/-- C8: toggling the camera facing is an involution — applying
`toggleCameraType` twice restores the whole state, and applying it once
always yields the other facing value. -/
theorem toggleFacing_involutive (st : NavState) :
    toggleCameraType (toggleCameraType st) = st ∧
    (toggleCameraType st).cameraType ≠ st.cameraType := by
  cases st with
  | mk o a ac l sp v hp ct sc stc dc al mp co cr cm =>
      cases ct <;> simp [toggleCameraType]

/-- C10: every delivered speech result transitions the listening state to
idle without `Voice.stop` ever being called — `onSpeechResults` stores
the transcript, clears `isListening`, leaves the stop count unchanged,
and the flag stays cleared after the spoken-text effect re-runs. -/
theorem speech_result_goes_idle (st : NavState) (t : String) :
    (onSpeechResults t st).isListening = false ∧
    (onSpeechResults t st).spokenText = t ∧
    (onSpeechResults t st).stopCount = st.stopCount ∧
    (stepE (Ev.speechResult t) st).isListening = false := by
  refine ⟨rfl, rfl, rfl, ?_⟩
  simp only [stepE, eventStep, spokenEffect, toggleMenu, onSpeechResults]
  split_ifs <;> simp

end ARApp
